import Mathlib

/-!
Shallow embedding of `src/pages/FindShops.tsx`, a search-and-browse page for
a directory of local businesses.  The page holds a small UI state (business
list, category list, loading flag, three filter values), builds a filtered
read-only query against a remote store whenever a filter changes, and renders
one of three mutually exclusive views (loading placeholders, result cards,
empty-state message).

The remote store client (supabase), the search-term expansion utility and the
category-name normalization utility are external collaborators; the two
utilities are universally quantified function parameters here, and the store
client's query builder is embedded as an explicit query AST whose row
semantics follows the client's documented behaviour (equality filter,
case-insensitive substring filter, OR composition within a clause, AND
composition across clauses).
-/

namespace FindShops

/-- Lower-case a character list (model of case folding for ILIKE). -/
def lowerChars (l : List Char) : List Char := l.map Char.toLower

/-- Test that `needle` occurs as a contiguous sublist of `hay`. -/
def containsSub (needle hay : List Char) : Bool :=
  hay.tails.any (fun suffix => needle.isPrefixOf suffix)

/-- Case-insensitive substring test: model of SQL `value ILIKE %needle%`. -/
def icontains (needle hay : String) : Bool :=
  containsSub (lowerChars needle.data) (lowerChars hay.data)

/-- The inner term of a `%term%` ILIKE pattern (strip the surrounding percent signs). -/
def patternNeedle (p : String) : String := String.mk ((p.data.drop 1).dropLast)

/-- The `Business` row interface of `FindShops.tsx` (fields as returned by the
`businesses` collection; optional TypeScript fields become `Option`). -/
structure Business where
  id : String
  name : String
  description : Option String := none
  category : String
  address : Option String := none
  city : Option String := none
  state : Option String := none
  zip_code : Option String := none
  phone : Option String := none
  email : Option String := none
  website : Option String := none
  image_url : Option String := none
  rating : Int
  owner_id : String
  created_at : String
  updated_at : String
deriving DecidableEq

/-- A stored row as the query filters see it: field name to stored text value,
`none` standing for SQL NULL. -/
def Row := String → Option String

/-- One primitive filter condition inside an OR clause, as written in the
supabase `.or(...)` filter string. -/
inductive Cond where
  | ilike (field : String) (pattern : String)
  | eq (field : String) (value : String)
deriving DecidableEq

/-- One filter clause appended to the query builder: `.or(...)` with a list of
conditions, or a single `.eq(field, value)`. -/
inductive QFilter where
  | orF (conds : List Cond)
  | eqF (field : String) (value : String)
deriving DecidableEq

/-- The query built by the supabase query builder: target table, selected
columns, ordering (column, ascending flag) and the AND-combined filter clauses
in the order they were appended. -/
structure Query where
  table : String
  selectCols : String
  orderBy : Option (String × Bool)
  filters : List QFilter
deriving DecidableEq

/-- Appending one filter clause to the builder chain. -/
def Query.addFilter (q : Query) (f : QFilter) : Query :=
  { q with filters := q.filters ++ [f] }

/-- Row semantics of one condition (store-documented behaviour: `ilike`
with a `%term%` pattern is a case-insensitive substring test, `eq` is exact
equality; a NULL field satisfies neither). -/
def evalCond (row : Row) : Cond → Bool
  | Cond.ilike field pattern =>
    match row field with
    | some v => icontains (patternNeedle pattern) v
    | none => false
  | Cond.eq field value =>
    match row field with
    | some v => v == value
    | none => false

/-- Row semantics of one filter clause: `.or` is the disjunction of its
conditions, `.eq` is exact equality on the field. -/
def evalFilter (row : Row) : QFilter → Bool
  | QFilter.orF conds => conds.any (evalCond row)
  | QFilter.eqF field value =>
    match row field with
    | some v => v == value
    | none => false

/-- Row semantics of the whole query: all appended clauses must hold (the
store ANDs separate builder calls together). -/
def rowMatches (q : Query) (row : Row) : Bool :=
  q.filters.all (evalFilter row)

/-- Convenience: the field's value contains `needle` case-insensitively
(false on NULL). -/
def fieldIContains (row : Row) (field needle : String) : Bool :=
  match row field with
  | some v => icontains needle v
  | none => false

/-- The search clause of `fetchBusinesses`: one `.or(...)` whose condition
string maps every expanded term to
`name.ilike.%term%,description.ilike.%term%,products_catalog.ilike.%term%`
and joins the pieces with `,` (supabase OR). -/
def searchFilterOf (expandSearchTerms : String → List String) (searchTerm : String) : QFilter :=
  QFilter.orF ((expandSearchTerms searchTerm).flatMap (fun term =>
    [Cond.ilike "name" ("%" ++ term ++ "%"),
     Cond.ilike "description" ("%" ++ term ++ "%"),
     Cond.ilike "products_catalog" ("%" ++ term ++ "%")]))

/-- The category clause of `fetchBusinesses`: `.eq("category", normalizedCategory)`. -/
def categoryFilterOf (normalizeCategoryName : String → String) (selectedCategory : String) : QFilter :=
  QFilter.eqF "category" (normalizeCategoryName selectedCategory)

/-- The location clause of `fetchBusinesses`:
`.or("city.ilike.%loc%,state.ilike.%loc%")`. -/
def locationFilterOf (locationFilter : String) : QFilter :=
  QFilter.orF [Cond.ilike "city" ("%" ++ locationFilter ++ "%"),
               Cond.ilike "state" ("%" ++ locationFilter ++ "%")]

/-- The query built by `fetchBusinesses`:
`supabase.from("businesses").select("*").order("rating", { ascending: false })`,
then conditionally the search clause (if `searchTerm` non-empty), the category
clause (if `selectedCategory !== "all"`) and the location clause (if
`locationFilter` non-empty), appended in that order. -/
def buildBusinessQuery (expandSearchTerms : String → List String)
    (normalizeCategoryName : String → String)
    (searchTerm selectedCategory locationFilter : String) : Query :=
  let base : Query :=
    { table := "businesses", selectCols := "*",
      orderBy := some ("rating", false), filters := [] }
  let q1 := if searchTerm != "" then
      base.addFilter (searchFilterOf expandSearchTerms searchTerm)
    else base
  let q2 := if selectedCategory != "all" then
      q1.addFilter (categoryFilterOf normalizeCategoryName selectedCategory)
    else q1
  let q3 := if locationFilter != "" then
      q2.addFilter (locationFilterOf locationFilter)
    else q2
  q3

/-- The query issued by `fetchCategories`:
`supabase.from("business_categories").select("name").order("name")`
(ascending by default, no filter clauses). -/
def categoriesQuery : Query :=
  { table := "business_categories", selectCols := "name",
    orderBy := some ("name", true), filters := [] }

/-- A row of the `business_categories` collection as selected (`name` only). -/
structure CategoryRow where
  name : String
deriving DecidableEq

/-- The arguments of one `toast(...)` call. -/
structure ToastMsg where
  title : String
  description : String
  variant : String
deriving DecidableEq

/-- The toast raised in the catch branch of `fetchBusinesses`. -/
def businessFetchErrorToast : ToastMsg :=
  { title := "Error",
    description := "Failed to fetch businesses. Please try again.",
    variant := "destructive" }

/-- Resolution of a remote call: `{ data, error }` with `data` possibly null
(`ok none`), or a rejection. -/
inductive FetchOutcome (ρ : Type) where
  | ok (rows : Option (List ρ))
  | err (e : String)
deriving DecidableEq

/-- One observable action taken by the component, in program order. -/
inductive Effect where
  | setBusinesses (rows : List Business)
  | setCategories (names : List String)
  | setLoading (b : Bool)
  | logError (context : String)
  | showToast (t : ToastMsg)
deriving DecidableEq

/-- The ordered actions `fetchBusinesses` performs once its query resolves:
on success `setBusinesses(data || [])`; on rejection `console.error`, then the
error toast; in both cases the `finally` block runs `setLoading(false)` last. -/
def fetchBusinessesEffects : FetchOutcome Business → List Effect
  | FetchOutcome.ok rows =>
    [Effect.setBusinesses (rows.getD []), Effect.setLoading false]
  | FetchOutcome.err _ =>
    [Effect.logError "Error fetching businesses:",
     Effect.showToast businessFetchErrorToast,
     Effect.setLoading false]

/-- The ordered actions `fetchCategories` performs once its query resolves:
on success `setCategories(data?.map(cat => cat.name) || [])`; on rejection
only `console.error` (no toast, categories untouched). -/
def fetchCategoriesEffects : FetchOutcome CategoryRow → List Effect
  | FetchOutcome.ok rows =>
    [Effect.setCategories ((rows.map (fun l => l.map CategoryRow.name)).getD [])]
  | FetchOutcome.err _ =>
    [Effect.logError "Error fetching categories:"]

/-- The component state held in `useState` hooks. -/
structure PageState where
  businesses : List Business
  categories : List String
  loading : Bool
  searchTerm : String
  selectedCategory : String
  locationFilter : String
deriving DecidableEq

/-- The `useState` initial values: empty lists, `loading` starts `true`,
empty search text, the `"all"` category sentinel, empty location text. -/
def initState : PageState :=
  { businesses := [], categories := [], loading := true,
    searchTerm := "", selectedCategory := "all", locationFilter := "" }

/-- State transition of a single effect. -/
def applyEffect (s : PageState) : Effect → PageState
  | Effect.setBusinesses rows => { s with businesses := rows }
  | Effect.setCategories names => { s with categories := names }
  | Effect.setLoading b => { s with loading := b }
  | Effect.logError _ => s
  | Effect.showToast _ => s

/-- Apply an effect list in order. -/
def applyEffects (s : PageState) (effects : List Effect) : PageState :=
  effects.foldl applyEffect s

/-- Holds exactly on toast effects. -/
def isToastEffect : Effect → Bool
  | Effect.showToast _ => true
  | _ => false

/-- Holds exactly on log effects. -/
def isLogEffect : Effect → Bool
  | Effect.logError _ => true
  | _ => false

/-- The filter `useEffect` (dependencies `[searchTerm, selectedCategory,
locationFilter]`): if any filter is non-default, set the loading flag and
issue `fetchBusinesses`' query; otherwise clear the business list, clear the
loading flag and issue nothing. -/
def filterEffect (expandSearchTerms : String → List String)
    (normalizeCategoryName : String → String) (s : PageState) :
    PageState × Option Query :=
  if s.searchTerm != "" || s.selectedCategory != "all" || s.locationFilter != "" then
    ({ s with loading := true },
     some (buildBusinessQuery expandSearchTerms normalizeCategoryName
       s.searchTerm s.selectedCategory s.locationFilter))
  else
    ({ s with businesses := [], loading := false }, none)

/-- Externally triggered component events: the initial mount, and the three
filter callbacks handed to `SearchFilters`. -/
inductive PageEvent where
  | mount
  | searchChanged (value : String)
  | categoryChanged (value : String)
  | locationChanged (value : String)

/-- A remote request issued by the component. -/
inductive Request where
  | categoriesReq (q : Query)
  | businessesReq (q : Query)
deriving DecidableEq

/-- Holds exactly on category-collection requests. -/
def isCategoriesReq : Request → Bool
  | Request.categoriesReq _ => true
  | Request.businessesReq _ => false

/-- Synchronous reaction to one event.  On mount both `useEffect` hooks run:
`fetchCategories` (empty dependency list, hence mount only) and the filter
effect.  A filter callback updates its state slot and re-runs only the filter
effect; the categories effect never re-runs. -/
def step (expandSearchTerms : String → List String)
    (normalizeCategoryName : String → String) (s : PageState) :
    PageEvent → PageState × List Request
  | PageEvent.mount =>
    let r := filterEffect expandSearchTerms normalizeCategoryName s
    (r.1, Request.categoriesReq categoriesQuery ::
      (r.2.map Request.businessesReq).toList)
  | PageEvent.searchChanged value =>
    let r := filterEffect expandSearchTerms normalizeCategoryName
      { s with searchTerm := value }
    (r.1, (r.2.map Request.businessesReq).toList)
  | PageEvent.categoryChanged value =>
    let r := filterEffect expandSearchTerms normalizeCategoryName
      { s with selectedCategory := value }
    (r.1, (r.2.map Request.businessesReq).toList)
  | PageEvent.locationChanged value =>
    let r := filterEffect expandSearchTerms normalizeCategoryName
      { s with locationFilter := value }
    (r.1, (r.2.map Request.businessesReq).toList)

/-- One rendered element of the results area. -/
inductive Rendered where
  | skeletonCard (key : Nat)
  | businessCard (key : String) (business : Business)
  | emptyMessage (primary hint : String)
deriving DecidableEq

/-- The results area of the JSX: if `loading`, six skeleton cards keyed by
index; else if the business list is non-empty, one `PopularBusinessCard` per
business keyed by `business.id`, in list order; else the empty-state message
with its hint line. -/
def renderResults (loading : Bool) (businesses : List Business) : List Rendered :=
  if loading then
    (List.range 6).map Rendered.skeletonCard
  else if businesses.length > 0 then
    businesses.map (fun business => Rendered.businessCard business.id business)
  else
    [Rendered.emptyMessage "No businesses found matching your criteria."
      "Try adjusting your search filters or browse all categories."]

/-- A concrete business used to instantiate universally quantified claims. -/
def sampleBusiness : Business :=
  { id := "b1", name := "Coffee Corner", category := "Food", rating := 5,
    owner_id := "u1", created_at := "2024-01-01", updated_at := "2024-01-01" }

end FindShops

namespace FindShops

theorem any_flatMap {α β : Type} (f : α → List β) (p : β → Bool) (l : List α) :
    (l.flatMap f).any p = l.any (fun a => (f a).any p) := by
  induction l with
  | nil => rfl
  | cons a t ih => simp [List.flatMap_cons, List.any_append, ih]

theorem patternNeedle_percent (t : String) : patternNeedle ("%" ++ t ++ "%") = t := by
  simp [patternNeedle, String.data_append]

theorem buildBusinessQuery_filters (expand : String → List String)
    (normalize : String → String) (st cat loc : String) :
    (buildBusinessQuery expand normalize st cat loc).filters =
      (if st != "" then [searchFilterOf expand st] else []) ++
      (if cat != "all" then [categoryFilterOf normalize cat] else []) ++
      (if loc != "" then [locationFilterOf loc] else []) := by
  simp only [buildBusinessQuery, Query.addFilter]
  split <;> split <;> split <;> simp

/-- Claim C2: with empty search text, the `"all"` category and empty location
text, the filter effect issues no remote query, empties the business list and
clears the loading flag. -/
theorem default_filters_skip_fetch (expand : String → List String)
    (normalize : String → String) (s : PageState)
    (h1 : s.searchTerm = "") (h2 : s.selectedCategory = "all")
    (h3 : s.locationFilter = "") :
    filterEffect expand normalize s =
      ({ s with businesses := [], loading := false }, none) := by
  simp [filterEffect, h1, h2, h3]

theorem default_filters_skip_fetch_witness :
    filterEffect (fun s => [s]) (fun s => s) initState =
      ({ initState with businesses := [], loading := false }, none) :=
  default_filters_skip_fetch (fun s => [s]) (fun s => s) initState rfl rfl rfl

/-- Claim C3: a failed business fetch logs the failure, raises exactly one
toast (title "Error", retry description, destructive variant), leaves the
business list unchanged, and clears the loading flag as its last action. -/
theorem fetch_failure_behavior (s : PageState) (e : String) :
    (fetchBusinessesEffects (FetchOutcome.err e)).filter isToastEffect =
      [Effect.showToast businessFetchErrorToast] ∧
    businessFetchErrorToast.title = "Error" ∧
    businessFetchErrorToast.description =
      "Failed to fetch businesses. Please try again." ∧
    businessFetchErrorToast.variant = "destructive" ∧
    (fetchBusinessesEffects (FetchOutcome.err e)).filter isLogEffect =
      [Effect.logError "Error fetching businesses:"] ∧
    (applyEffects s (fetchBusinessesEffects (FetchOutcome.err e))).businesses =
      s.businesses ∧
    (applyEffects s (fetchBusinessesEffects (FetchOutcome.err e))).loading = false ∧
    (fetchBusinessesEffects (FetchOutcome.err e)).getLast? =
      some (Effect.setLoading false) :=
  ⟨rfl, rfl, rfl, rfl, rfl, rfl, rfl, rfl⟩

/-- Claim C4: a successful business fetch replaces the displayed list with the
returned rows regardless of the previous list; zero rows or a null row list
yield the empty list. -/
theorem fetch_success_replaces (s : PageState) (rows : Option (List Business)) :
    (applyEffects s (fetchBusinessesEffects (FetchOutcome.ok rows))).businesses =
      rows.getD [] ∧
    (applyEffects s (fetchBusinessesEffects (FetchOutcome.ok none))).businesses = [] ∧
    (applyEffects s
      (fetchBusinessesEffects (FetchOutcome.ok (some [])))).businesses = [] :=
  ⟨rfl, rfl, rfl⟩

/-- Claim C5: the results area is a three-way exclusive branch: loading gives
exactly 6 skeleton cards keyed by index; otherwise a non-empty list gives one
card per business keyed by id in list order; otherwise the empty-state message
with its hint line. -/
theorem renderer_three_branches (loading : Bool) (businesses : List Business) :
    (loading = true →
      renderResults loading businesses = (List.range 6).map Rendered.skeletonCard ∧
      (renderResults loading businesses).length = 6) ∧
    (loading = false → 0 < businesses.length →
      renderResults loading businesses =
        businesses.map (fun b => Rendered.businessCard b.id b) ∧
      (renderResults loading businesses).length = businesses.length) ∧
    (loading = false → businesses.length = 0 →
      renderResults loading businesses =
        [Rendered.emptyMessage "No businesses found matching your criteria."
          "Try adjusting your search filters or browse all categories."]) := by
  refine ⟨fun h => ?_, fun h hl => ?_, fun h hl => ?_⟩ <;> subst h
  · simp [renderResults]
  · simp [renderResults, hl]
  · simp [renderResults, List.length_eq_zero.mp hl]

theorem renderer_three_branches_witness :
    renderResults true [] = (List.range 6).map Rendered.skeletonCard ∧
    renderResults false [sampleBusiness] =
      [Rendered.businessCard "b1" sampleBusiness] ∧
    renderResults false [] =
      [Rendered.emptyMessage "No businesses found matching your criteria."
        "Try adjusting your search filters or browse all categories."] :=
  ⟨((renderer_three_branches true []).1 rfl).1,
   ((renderer_three_branches false [sampleBusiness]).2.1 rfl (by decide)).1,
   (renderer_three_branches false []).2.2 rfl rfl⟩

/-- Claim C10: the loading flag starts true, so the very first render shows
the 6 skeleton cards; the first run of the filter effect on the default state
clears the flag and the list without issuing a query. -/
theorem initial_mount_loading (expand : String → List String)
    (normalize : String → String) :
    initState.loading = true ∧
    renderResults initState.loading initState.businesses =
      (List.range 6).map Rendered.skeletonCard ∧
    (renderResults initState.loading initState.businesses).length = 6 ∧
    (filterEffect expand normalize initState).1.loading = false ∧
    (filterEffect expand normalize initState).1.businesses = [] ∧
    (filterEffect expand normalize initState).2 = none :=
  ⟨rfl, rfl, rfl, rfl, rfl, rfl⟩

end FindShops

namespace FindShops

theorem evalCond_ilike_percent (row : Row) (field term : String) :
    evalCond row (Cond.ilike field ("%" ++ term ++ "%")) =
      fieldIContains row field term := by
  simp only [evalCond, fieldIContains, patternNeedle_percent]

theorem searchFilterOf_ne_locationFilterOf (expand : String → List String)
    (st loc : String) : searchFilterOf expand st ≠ locationFilterOf loc := by
  simp only [searchFilterOf, locationFilterOf, ne_eq, QFilter.orF.injEq]
  cases hE : expand st with
  | nil => simp
  | cons a t => simp [List.flatMap_cons]

theorem categoryFilterOf_ne_locationFilterOf (normalize : String → String)
    (cat loc : String) : categoryFilterOf normalize cat ≠ locationFilterOf loc := by
  simp [categoryFilterOf, locationFilterOf]

theorem buildBusinessQuery_header (expand : String → List String)
    (normalize : String → String) (st cat loc : String) :
    (buildBusinessQuery expand normalize st cat loc).table = "businesses" ∧
    (buildBusinessQuery expand normalize st cat loc).selectCols = "*" ∧
    (buildBusinessQuery expand normalize st cat loc).orderBy =
      some ("rating", false) := by
  simp only [buildBusinessQuery, Query.addFilter]
  split <;> split <;> split <;> simp

/-- Claim C1: with non-empty search text the query contains the search clause:
for every term produced by the external expansion utility, a case-insensitive
substring match on name, description or products_catalog, all conditions
OR-combined. -/
theorem search_clause_correct (expand : String → List String)
    (normalize : String → String) (st cat loc : String) (h : st ≠ "") :
    searchFilterOf expand st ∈
      (buildBusinessQuery expand normalize st cat loc).filters ∧
    searchFilterOf expand st = QFilter.orF ((expand st).flatMap (fun term =>
      [Cond.ilike "name" ("%" ++ term ++ "%"),
       Cond.ilike "description" ("%" ++ term ++ "%"),
       Cond.ilike "products_catalog" ("%" ++ term ++ "%")])) ∧
    ∀ row : Row, evalFilter row (searchFilterOf expand st) =
      (expand st).any (fun term =>
        fieldIContains row "name" term ||
        (fieldIContains row "description" term ||
         fieldIContains row "products_catalog" term)) := by
  refine ⟨?_, rfl, ?_⟩
  · rw [buildBusinessQuery_filters]
    simp [h]
  · intro row
    simp only [searchFilterOf, evalFilter, any_flatMap, List.any_cons, List.any_nil,
      Bool.or_false, evalCond_ilike_percent]

theorem search_clause_correct_witness :
    searchFilterOf (fun s => [s]) "coffee" ∈
      (buildBusinessQuery (fun s => [s]) (fun s => s) "coffee" "all" "").filters :=
  (search_clause_correct (fun s => [s]) (fun s => s) "coffee" "all" ""
    (by decide)).1

/-- Claim C6: a specific selected category adds an exact-equality clause on
the category field against the externally normalized value; the `"all"`
sentinel adds no equality clause at all. -/
theorem category_clause_correct (expand : String → List String)
    (normalize : String → String) (st cat loc : String) :
    (cat ≠ "all" →
      categoryFilterOf normalize cat ∈
        (buildBusinessQuery expand normalize st cat loc).filters ∧
      categoryFilterOf normalize cat = QFilter.eqF "category" (normalize cat) ∧
      ∀ row : Row, evalFilter row (categoryFilterOf normalize cat) =
        (row "category" == some (normalize cat))) ∧
    (cat = "all" → ∀ f v, QFilter.eqF f v ∉
      (buildBusinessQuery expand normalize st cat loc).filters) := by
  constructor
  · intro h
    refine ⟨?_, rfl, ?_⟩
    · rw [buildBusinessQuery_filters]
      simp [h]
    · intro row
      simp only [categoryFilterOf, evalFilter]
      cases row "category" <;> rfl
  · intro h f v
    rw [buildBusinessQuery_filters, h]
    intro hmem
    simp only [List.mem_append] at hmem
    rcases hmem with (hm | hm) | hm
    · split at hm
      · exact absurd (List.mem_singleton.mp hm).symm (by simp [searchFilterOf])
      · exact absurd hm (List.not_mem_nil _)
    · split at hm
      · next hcond => exact absurd hcond (by decide)
      · exact absurd hm (List.not_mem_nil _)
    · split at hm
      · exact absurd (List.mem_singleton.mp hm).symm (by simp [locationFilterOf])
      · exact absurd hm (List.not_mem_nil _)

theorem category_clause_correct_witness :
    categoryFilterOf (fun s => s) "Food" ∈
      (buildBusinessQuery (fun s => [s]) (fun s => s) "" "Food" "").filters ∧
    QFilter.eqF "category" "Food" ∉
      (buildBusinessQuery (fun s => [s]) (fun s => s) "coffee" "all" "").filters :=
  ⟨((category_clause_correct (fun s => [s]) (fun s => s) "" "Food" "").1
      (by decide)).1,
   (category_clause_correct (fun s => [s]) (fun s => s) "coffee" "all" "").2
      rfl "category" "Food"⟩

/-- Claim C7: non-empty location text adds a clause requiring a
case-insensitive substring match on the city field OR the state field; empty
location text adds no such clause. -/
theorem location_clause_correct (expand : String → List String)
    (normalize : String → String) (st cat loc : String) :
    (loc ≠ "" →
      locationFilterOf loc ∈
        (buildBusinessQuery expand normalize st cat loc).filters ∧
      locationFilterOf loc = QFilter.orF
        [Cond.ilike "city" ("%" ++ loc ++ "%"),
         Cond.ilike "state" ("%" ++ loc ++ "%")] ∧
      ∀ row : Row, evalFilter row (locationFilterOf loc) =
        (fieldIContains row "city" loc || fieldIContains row "state" loc)) ∧
    (loc = "" → ∀ l : String, locationFilterOf l ∉
      (buildBusinessQuery expand normalize st cat loc).filters) := by
  constructor
  · intro h
    refine ⟨?_, rfl, ?_⟩
    · rw [buildBusinessQuery_filters]
      simp [h]
    · intro row
      simp only [locationFilterOf, evalFilter, List.any_cons, List.any_nil,
        Bool.or_false, evalCond_ilike_percent]
  · intro h l
    rw [buildBusinessQuery_filters, h]
    intro hmem
    simp only [List.mem_append] at hmem
    rcases hmem with (hm | hm) | hm
    · split at hm
      · exact searchFilterOf_ne_locationFilterOf expand st l
          (List.mem_singleton.mp hm).symm
      · exact absurd hm (List.not_mem_nil _)
    · split at hm
      · exact categoryFilterOf_ne_locationFilterOf normalize cat l
          (List.mem_singleton.mp hm).symm
      · exact absurd hm (List.not_mem_nil _)
    · split at hm
      · next hcond => exact absurd hcond (by decide)
      · exact absurd hm (List.not_mem_nil _)

theorem location_clause_correct_witness :
    locationFilterOf "Austin" ∈
      (buildBusinessQuery (fun s => [s]) (fun s => s) "" "all" "Austin").filters ∧
    locationFilterOf "Austin" ∉
      (buildBusinessQuery (fun s => [s]) (fun s => s) "coffee" "all" "").filters :=
  ⟨((location_clause_correct (fun s => [s]) (fun s => s) "" "all" "Austin").1
      (by decide)).1,
   (location_clause_correct (fun s => [s]) (fun s => s) "coffee" "all" "").2
      rfl "Austin"⟩

/-- Claim C8: every issued business-fetch query targets the businesses table,
selects all columns, orders by rating descending, and AND-combines exactly the
filter clauses present. -/
theorem issued_query_shape (expand : String → List String)
    (normalize : String → String) (s : PageState) (q : Query)
    (h : (filterEffect expand normalize s).2 = some q) :
    q.table = "businesses" ∧ q.selectCols = "*" ∧
    q.orderBy = some ("rating", false) ∧
    q.filters =
      (if s.searchTerm != "" then [searchFilterOf expand s.searchTerm] else []) ++
      (if s.selectedCategory != "all" then
        [categoryFilterOf normalize s.selectedCategory] else []) ++
      (if s.locationFilter != "" then [locationFilterOf s.locationFilter] else []) ∧
    ∀ row : Row, rowMatches q row = q.filters.all (evalFilter row) := by
  have hq : q = buildBusinessQuery expand normalize
      s.searchTerm s.selectedCategory s.locationFilter := by
    by_cases hc : (s.searchTerm != "" || s.selectedCategory != "all" ||
        s.locationFilter != "") = true
    · rw [filterEffect, if_pos hc] at h
      exact (Option.some.injEq _ _ ▸ h).symm
    · rw [filterEffect, if_neg hc] at h
      exact absurd h (by simp)
  subst hq
  exact ⟨(buildBusinessQuery_header expand normalize _ _ _).1,
    (buildBusinessQuery_header expand normalize _ _ _).2.1,
    (buildBusinessQuery_header expand normalize _ _ _).2.2,
    buildBusinessQuery_filters expand normalize _ _ _,
    fun row => rfl⟩

theorem issued_query_shape_witness :
    (buildBusinessQuery (fun s => [s]) (fun s => s) "coffee" "all" "").selectCols =
      "*" ∧
    (buildBusinessQuery (fun s => [s]) (fun s => s) "coffee" "all" "").orderBy =
      some ("rating", false) :=
  ⟨(issued_query_shape (fun s => [s]) (fun s => s)
      { initState with searchTerm := "coffee" }
      (buildBusinessQuery (fun s => [s]) (fun s => s) "coffee" "all" "") rfl).2.1,
   (issued_query_shape (fun s => [s]) (fun s => s)
      { initState with searchTerm := "coffee" }
      (buildBusinessQuery (fun s => [s]) (fun s => s) "coffee" "all" "") rfl).2.2.1⟩

/-- Claim C9: the category list is fetched exactly once per mount with the
name-ascending query and never on filter changes; success stores the name
strings; failure only logs (no toast) and the category list stays empty. -/
theorem categories_fetch_once (expand : String → List String)
    (normalize : String → String) (s : PageState) (v e : String)
    (rows : Option (List CategoryRow)) :
    (step expand normalize s PageEvent.mount).2.filter isCategoriesReq =
      [Request.categoriesReq categoriesQuery] ∧
    categoriesQuery.table = "business_categories" ∧
    categoriesQuery.selectCols = "name" ∧
    categoriesQuery.orderBy = some ("name", true) ∧
    (step expand normalize s (PageEvent.searchChanged v)).2.filter
      isCategoriesReq = [] ∧
    (step expand normalize s (PageEvent.categoryChanged v)).2.filter
      isCategoriesReq = [] ∧
    (step expand normalize s (PageEvent.locationChanged v)).2.filter
      isCategoriesReq = [] ∧
    (applyEffects s (fetchCategoriesEffects (FetchOutcome.ok rows))).categories =
      (rows.map (fun l => l.map CategoryRow.name)).getD [] ∧
    fetchCategoriesEffects (FetchOutcome.err e) =
      [Effect.logError "Error fetching categories:"] ∧
    (fetchCategoriesEffects (FetchOutcome.err e)).filter isToastEffect = [] ∧
    (applyEffects initState
      (fetchCategoriesEffects (FetchOutcome.err e))).categories = [] := by
  refine ⟨?_, rfl, rfl, rfl, ?_, ?_, ?_, rfl, rfl, rfl, rfl⟩
  · simp only [step]
    cases hr : (filterEffect expand normalize s).2 <;>
      simp [hr, isCategoriesReq]
  · simp only [step]
    cases hr : (filterEffect expand normalize { s with searchTerm := v }).2 <;>
      simp [hr, isCategoriesReq]
  · simp only [step]
    cases hr : (filterEffect expand normalize { s with selectedCategory := v }).2 <;>
      simp [hr, isCategoriesReq]
  · simp only [step]
    cases hr : (filterEffect expand normalize { s with locationFilter := v }).2 <;>
      simp [hr, isCategoriesReq]

end FindShops
